import Mathlib

/-!
Verification development for the hass-tailscale-lambda repository (Go).

The source under scrutiny is `main.go`: a request dispatcher
(`HandleRequest`) that validates an Alexa smart-home directive envelope,
resolves a bearer-token scope, POSTs the event to a Home Assistant
backend, and maps backend failures; plus a transport selector
(`createHTTPClient`) and the constructor (`NewLambdaHandler`).

The embedding is shallow: Go `map[string]interface{}` values (decoded
JSON) become the inductive `JVal`; maps become association lists with
unique keys; Go two-valued type assertions (`x, ok := v.(T)`) become
`Option`-returning casts; the network (the HTTP client's `Do`) becomes
an explicit oracle function passed to `handleRequest`; Go `panic` in the
constructor becomes `Option.none`. Every return path of `HandleRequest`
also reports the state of the event map at return (`finalEvent`) and
whether an HTTP call was attempted (`call`), so that frame and
no-call properties are statable.
-/

namespace HassTailscale

/-- A decoded JSON document, as Go's `encoding/json` produces into
`map[string]interface{}` / `[]interface{}` / `string` / `bool` / number /
`nil`.  Numbers are modelled as integers (no claim inspects numerics). -/
inductive JVal where
  | null : JVal
  | bool : Bool → JVal
  | num : Int → JVal
  | str : String → JVal
  | arr : List JVal → JVal
  | obj : List (String × JVal) → JVal

/-- A Go `map[string]interface{}` holding decoded JSON: an association
list with (by Go map semantics) unique keys; lookup takes the first match. -/
abbrev JObj := List (String × JVal)

/-- The Go type assertion `v.(map[string]interface{})` with the two-valued
form: yields the object when the dynamic type matches, `none` otherwise
(including a missing key, where the Go map lookup returns `nil`). -/
def asObj : Option JVal → Option JObj
  | some (JVal.obj kvs) => some kvs
  | _ => none

/-- The composite `o[k].(map[string]interface{})`: look up key `k` and
assert the result is an object. -/
def getObj (o : JObj) (k : String) : Option JObj :=
  asObj (o.lookup k)

/-- The Go type assertion `v.(string)` with the discarded-ok form
(`s, _ := v.(string)`): yields the string when the dynamic type is
`string`, and the zero value `""` otherwise (missing key included). -/
def goStr : Option JVal → String
  | some (JVal.str s) => s
  | _ => ""

/-- The Go comparison `v == lit` between an `interface{}` map entry and a
string literal: true exactly when the dynamic type is `string` and the
value equals the literal. -/
def jeqStr : Option JVal → String → Bool
  | some (JVal.str s), t => s == t
  | _, _ => false

/-- Whether a JSON value is a string (used only to state claims about
non-string fields). -/
def JVal.isStr : JVal → Bool
  | JVal.str _ => true
  | _ => false

/-! ### JSON serialization (Go `json.Marshal` on decoded documents)

Go's `encoding/json` marshals a `map[string]interface{}` with keys in
sorted order, escaping `"`/`\\`/control characters and (by default)
`<`, `>`, `&`.  Marshalling a document that came from decoded JSON cannot
fail, so `marshal` is total. -/

/-- Lower-case hexadecimal digit. -/
def hexDigitChar (n : Nat) : Char :=
  if n < 10 then Char.ofNat (48 + n) else Char.ofNat (87 + n)

/-- Two lower-case hex digits of a byte. -/
def hexByte (n : Nat) : String :=
  String.singleton (hexDigitChar (n / 16)) ++ String.singleton (hexDigitChar (n % 16))

/-- Escape one character the way Go's JSON encoder does by default. -/
def escapeChar (c : Char) : String :=
  if c = '"' then "\\\""
  else if c = '\\' then "\\\\"
  else if c = '\n' then "\\n"
  else if c = '\r' then "\\r"
  else if c = '\t' then "\\t"
  else if c = '<' then "\\u003c"
  else if c = '>' then "\\u003e"
  else if c = '&' then "\\u0026"
  else if c.toNat < 32 then "\\u00" ++ hexByte c.toNat
  else String.singleton c

/-- A JSON string literal with Go-style escaping. -/
def jsonQuote (s : String) : String :=
  "\"" ++ String.join (s.data.map escapeChar) ++ "\""

/-- Stable insertion of a rendered member into a key-sorted list. -/
def insertPair (p : String × String) : List (String × String) → List (String × String)
  | [] => [p]
  | q :: qs => if p.1 ≤ q.1 then p :: q :: qs else q :: insertPair p qs

/-- Key-sort rendered object members, as Go's map marshalling does. -/
def sortPairs : List (String × String) → List (String × String)
  | [] => []
  | p :: ps => insertPair p (sortPairs ps)

/-- Comma-separated concatenation. -/
def commaJoin : List String → String
  | [] => ""
  | [x] => x
  | x :: xs => x ++ "," ++ commaJoin xs

/-- Render sorted members as `"key":value`. -/
def renderPairs (ps : List (String × String)) : List String :=
  ps.map (fun p => jsonQuote p.1 ++ ":" ++ p.2)

/-- Opening brace, written via its code point. -/
def lbrace : String := String.singleton (Char.ofNat 123)

/-- Closing brace, written via its code point. -/
def rbrace : String := String.singleton (Char.ofNat 125)

mutual

/-- Go `json.Marshal` of a decoded document, as a string. -/
def marshal : JVal → String
  | JVal.null => "null"
  | JVal.bool true => "true"
  | JVal.bool false => "false"
  | JVal.num n => toString n
  | JVal.str s => jsonQuote s
  | JVal.arr xs => "[" ++ commaJoin (marshalList xs) ++ "]"
  | JVal.obj kvs => lbrace ++ commaJoin (renderPairs (sortPairs (marshalPairs kvs))) ++ rbrace

/-- Marshal the elements of an array. -/
def marshalList : List JVal → List String
  | [] => []
  | x :: xs => marshal x :: marshalList xs

/-- Marshal the values of an object's members, keeping the keys. -/
def marshalPairs : List (String × JVal) → List (String × String)
  | [] => []
  | (k, v) :: rest => (k, marshal v) :: marshalPairs rest

end

/-! ### The handler's data model -/

/-- The parts of Go's `http.Client` this program configures: the request
timeout (`Timeout`, in seconds; the zero value `0` means no timeout) and
whether the transport skips TLS certificate verification. -/
structure HTTPClient where
  Timeout : Nat
  InsecureSkipVerify : Bool

/-- The handler configuration (`LambdaHandler` in `main.go`).  The
`*tsnet.Server` field is modelled by the capability it yields: `some c`
means an overlay session is configured and `c` is the client its
`HTTPClient()` method returns (the tailscale library is an external
collaborator; its client is a zero-value `http.Client` with a transport,
so its `Timeout` is `0` unless this program sets it).  The logger is an
out-of-scope collaborator and is omitted. -/
structure LambdaHandler where
  BaseURL : String
  Debug : Bool
  LongLivedToken : String
  VerifySSL : Bool
  TSNetServer : Option HTTPClient

/-- A backend HTTP response as `HandleRequest` observes it: the status
code, and the body decoded as a structured document (`none` models a body
that fails to decode into `map[string]interface{}`). -/
structure HTTPResponse where
  StatusCode : Int
  DecodedBody : Option JObj

/-- The outbound request `HandleRequest` constructs. -/
structure OutRequest where
  Method : String
  URL : String
  Authorization : String
  ContentType : String
  Body : String

/-- The distinct error results of `HandleRequest`, one constructor per
`fmt.Errorf` site (`statusErr` carries the backend status code that the
message `"status code: %d"` interpolates). -/
inductive HErr where
  | missingDirective : HErr
  | unsupportedVersion : HErr
  | missingScope : HErr
  | unsupportedAuthType : HErr
  | internalServerError : HErr
  | statusErr : Int → HErr
  | decodeErr : HErr

/-- The exact Go error message of each error result. -/
def HErr.message : HErr → String
  | HErr.missingDirective => "malformatted request - missing directive"
  | HErr.unsupportedVersion => "only support payloadVersion == 3"
  | HErr.missingScope => "malformatted request - missing endpoint.scope"
  | HErr.unsupportedAuthType => "only support BearerToken"
  | HErr.internalServerError => "internal server error"
  | HErr.statusErr n => "status code: " ++ toString n
  | HErr.decodeErr => "error decoding response"

/-- Whether an error belongs to the malformed-request kind of the error
taxonomy: exactly the errors whose message begins
`"malformatted request"` (missing directive, missing scope). -/
def HErr.isMalformedRequest : HErr → Bool
  | HErr.missingDirective => true
  | HErr.missingScope => true
  | _ => false

/-- Everything observable about one `HandleRequest` invocation: the
returned `(responseBody, err)` pair as an `Except`; the HTTP call that
was issued, if the code reached `client.Do` (`none` means no HTTP call
was performed); and the state of the event map at return (the source
never writes to the event or its sub-maps, so every return path leaves
it as received). -/
structure HandleOutcome where
  result : Except HErr JObj
  call : Option OutRequest
  finalEvent : JObj

/-! ### The dispatcher and transport selector, translated from main.go -/

/-- The header validation on lines 70-73 of `main.go`:
`header, ok := directive["header"].(map[string]interface{})` followed by
`!ok || header["payloadVersion"] != "3"` (negated: this is the condition
to proceed). -/
def versionOK (directive : JObj) : Bool :=
  match getObj directive "header" with
  | some header => jeqStr (header.lookup "payloadVersion") "3"
  | none => false

/-- The payload half of `extractScope`: `directive["payload"]` as an
object, then `payload["grantee"]` as an object, else `payload["scope"]`
as an object. -/
def extractScopeFromPayload (directive : JObj) : Option JObj :=
  match getObj directive "payload" with
  | some payload =>
    match getObj payload "grantee" with
    | some scope => some scope
    | none => getObj payload "scope"
  | none => none

/-- `extractScope` from `main.go`: try `directive.endpoint.scope`, and on
any failure there fall through to the payload locations. -/
def extractScope (directive : JObj) : Option JObj :=
  match getObj directive "endpoint" with
  | some endpoint =>
    match getObj endpoint "scope" with
    | some scope => some scope
    | none => extractScopeFromPayload directive
  | none => extractScopeFromPayload directive

/-- `errorType` from `main.go`: classify a backend status code. -/
def errorType (statusCode : Int) : String :=
  if statusCode = 401 ∨ statusCode = 403 then
    "INVALID_AUTHORIZATION_CREDENTIAL"
  else
    "INTERNAL_ERROR"

/-- `createHTTPClient` from `main.go`.  When an overlay session is
configured the function returns the session's client immediately; only
the direct-client branch falls through to the `client.Timeout = 10s`
assignment and the TLS-verification override. -/
def createHTTPClient (h : LambdaHandler) : HTTPClient :=
  match h.TSNetServer with
  | some client => client
  | none =>
    let client : HTTPClient := { Timeout := 0, InsecureSkipVerify := false }
    let client := { client with Timeout := 10 }
    if !h.VerifySSL then { client with InsecureSkipVerify := true } else client

/-- `HandleRequest` from `main.go`.  `net` is the oracle for
`client.Do`: given the configured client and the outbound request it
yields `some` response or `none` for a transport error.  Serialization
of a decoded JSON document and `http.NewRequest` on the fixed URL shape
cannot fail, so those Go error paths are unreachable in the model. -/
def handleRequest (h : LambdaHandler) (event : JObj)
    (net : HTTPClient → OutRequest → Option HTTPResponse) : HandleOutcome :=
  match getObj event "directive" with
  | none => ⟨Except.error HErr.missingDirective, none, event⟩
  | some directive =>
    if !(versionOK directive) then
      ⟨Except.error HErr.unsupportedVersion, none, event⟩
    else
      match extractScope directive with
      | none => ⟨Except.error HErr.missingScope, none, event⟩
      | some scope =>
        let scopeType := goStr (scope.lookup "type")
        if scopeType ≠ "BearerToken" then
          ⟨Except.error HErr.unsupportedAuthType, none, event⟩
        else
          let token0 := goStr (scope.lookup "token")
          let token := if token0 = "" ∧ h.Debug then h.LongLivedToken else token0
          let client := createHTTPClient h
          let eventJSON := marshal (JVal.obj event)
          let req : OutRequest :=
            ⟨"POST", h.BaseURL ++ "/api/alexa/smart_home",
              "Bearer " ++ token, "application/json", eventJSON⟩
          match net client req with
          | none => ⟨Except.error HErr.internalServerError, some req, event⟩
          | some resp =>
            if resp.StatusCode ≥ 400 then
              ⟨Except.error (HErr.statusErr resp.StatusCode), some req, event⟩
            else
              match resp.DecodedBody with
              | none => ⟨Except.error HErr.decodeErr, some req, event⟩
              | some body => ⟨Except.ok body, some req, event⟩

/-! ### The constructor -/

/-- `strings.TrimRight(s, "/")`: remove every trailing slash. -/
def trimRightSlash (s : String) : String :=
  String.mk ((s.data.reverse.dropWhile (fun c => c = '/')).reverse)

/-- The environment variables the constructor reads; `none` models an
unset variable (Go's `os.Getenv` then returns `""`). -/
structure Env where
  BASE_URL : Option String
  DEBUG : Option String
  LONG_LIVED_ACCESS_TOKEN : Option String
  NOT_VERIFY_SSL : Option String

/-- `NewLambdaHandler` from `main.go`.  `none` models the `panic` on an
empty trimmed base URL, which aborts the process before any request is
served.  (The logger-initialization panic concerns the out-of-scope
logging collaborator and is omitted.) -/
def NewLambdaHandler (env : Env) (tsNetServer : Option HTTPClient) : Option LambdaHandler :=
  let baseURL := trimRightSlash (env.BASE_URL.getD "")
  if baseURL = "" then none
  else
    some { BaseURL := baseURL,
           Debug := env.DEBUG.getD "" == "true",
           LongLivedToken := env.LONG_LIVED_ACCESS_TOKEN.getD "",
           VerifySSL := env.NOT_VERIFY_SSL.getD "" != "true",
           TSNetServer := tsNetServer }

/-- The scope-resolution order exactly as the spec words it: try
`directive.endpoint.scope`, then `directive.payload.grantee`, then
`directive.payload.scope`; first object found wins.  Stated
independently of `extractScope` to compare the two. -/
def extractScopeSpec (directive : JObj) : Option JObj :=
  ((getObj directive "endpoint").bind (fun e => getObj e "scope")).orElse
    (fun _ => ((getObj directive "payload").bind (fun p => getObj p "grantee")).orElse
      (fun _ => (getObj directive "payload").bind (fun p => getObj p "scope")))

/-! ### Concrete fixtures used to instantiate the theorems -/

/-- A direct-transport, non-debug handler. -/
def hDirect : LambdaHandler := ⟨"http://ha", false, "fallback-token", true, none⟩

/-- A direct-transport handler in debug mode. -/
def hDebug : LambdaHandler := ⟨"http://ha", true, "fallback-token", true, none⟩

/-- A valid version-3 event whose scope is a BearerToken with empty token. -/
def evV3 : JObj :=
  [("directive", JVal.obj
    [("header", JVal.obj [("payloadVersion", JVal.str "3")]),
     ("payload", JVal.obj
       [("scope", JVal.obj [("type", JVal.str "BearerToken"), ("token", JVal.str "")])])])]

/-- The directive of `evV3`. -/
def dV3 : JObj :=
  [("header", JVal.obj [("payloadVersion", JVal.str "3")]),
   ("payload", JVal.obj
     [("scope", JVal.obj [("type", JVal.str "BearerToken"), ("token", JVal.str "")])])]

/-- The scope of `evV3`. -/
def scopeV3 : JObj := [("type", JVal.str "BearerToken"), ("token", JVal.str "")]

/-- A network oracle that never responds (transport error on any call). -/
def netNone : HTTPClient → OutRequest → Option HTTPResponse := fun _ _ => none

/-- A backend that answers every request with status 500 and an empty body. -/
def net500 : HTTPClient → OutRequest → Option HTTPResponse := fun _ _ => some ⟨500, none⟩

/-! ### Shared lemmas -/

/-- A two-valued Go string assertion on a non-string value yields the
zero value `""`. -/
theorem goStr_eq_empty_of_not_isStr (v : JVal) (hv : v.isStr = false) :
    goStr (some v) = "" := by
  cases v <;> simp [JVal.isStr] at hv ⊢ <;> rfl

/-- When validation passes (directive present, version 3, scope found,
BearerToken type), `handleRequest` reduces to the backend-call phase with
the request it constructs. -/
theorem handleRequest_valid (h : LambdaHandler) (ev d scope : JObj)
    (net : HTTPClient → OutRequest → Option HTTPResponse)
    (hdir : getObj ev "directive" = some d)
    (hver : versionOK d = true)
    (hscope : extractScope d = some scope)
    (htype : goStr (scope.lookup "type") = "BearerToken") :
    handleRequest h ev net =
      (let token0 := goStr (scope.lookup "token")
       let token := if token0 = "" ∧ h.Debug then h.LongLivedToken else token0
       let req : OutRequest :=
         ⟨"POST", h.BaseURL ++ "/api/alexa/smart_home",
           "Bearer " ++ token, "application/json", marshal (JVal.obj ev)⟩
       match net (createHTTPClient h) req with
       | none => ⟨Except.error HErr.internalServerError, some req, ev⟩
       | some resp =>
         if resp.StatusCode ≥ 400 then
           ⟨Except.error (HErr.statusErr resp.StatusCode), some req, ev⟩
         else
           match resp.DecodedBody with
           | none => ⟨Except.error HErr.decodeErr, some req, ev⟩
           | some body => ⟨Except.ok body, some req, ev⟩) := by
  unfold handleRequest
  simp only [hdir, hver, hscope, htype, Bool.not_true, Bool.false_eq_true, if_false, ne_eq,
    not_true_eq_false, if_neg, not_false_eq_true, ite_false, ite_true]

/-! ### Claims -/

/-- C1: for every backend response with status code at least 400,
`HandleRequest` returns a failure carrying that status code, and the
error taxonomy (the program's `errorType`) classifies it as
invalid-authorization-credential exactly when the code is 401 or 403 and
as internal-error for every other code. -/
theorem c1_backend_error_carries_status_and_classification
    (h : LambdaHandler) (ev d scope : JObj)
    (net : HTTPClient → OutRequest → Option HTTPResponse) (resp : HTTPResponse)
    (hdir : getObj ev "directive" = some d)
    (hver : versionOK d = true)
    (hscope : extractScope d = some scope)
    (htype : goStr (scope.lookup "type") = "BearerToken")
    (hnet : ∀ c r, net c r = some resp)
    (hcode : 400 ≤ resp.StatusCode) :
    (handleRequest h ev net).result = Except.error (HErr.statusErr resp.StatusCode)
    ∧ errorType resp.StatusCode =
        (if resp.StatusCode = 401 ∨ resp.StatusCode = 403
         then "INVALID_AUTHORIZATION_CREDENTIAL" else "INTERNAL_ERROR") := by
  constructor
  · rw [handleRequest_valid h ev d scope net hdir hver hscope htype]
    simp only [hnet, ge_iff_le, hcode, if_true, ite_true]
  · rfl

/-- C1 witness: a backend answering 500 to a valid bearer-token event. -/
theorem c1_witness :
    (handleRequest hDirect evV3 net500).result = Except.error (HErr.statusErr 500)
    ∧ errorType 500 =
        (if (500 : Int) = 401 ∨ (500 : Int) = 403
         then "INVALID_AUTHORIZATION_CREDENTIAL" else "INTERNAL_ERROR") :=
  c1_backend_error_carries_status_and_classification hDirect evV3 dV3 scopeV3 net500
    ⟨500, none⟩ rfl rfl rfl rfl (fun _ _ => rfl) (by decide)

/-- C2 (code bug): with an overlay session configured,
`createHTTPClient` returns the session's client unchanged — the early
`return client` skips the `client.Timeout = 10 * time.Second`
assignment, so the overlay-bound client keeps the library's zero-value
timeout instead of the 10 seconds the claim requires; the direct-client
branch does set 10 seconds. -/
theorem c2_overlay_timeout_not_set :
    (createHTTPClient ⟨"http://ha", false, "", true, some ⟨0, false⟩⟩).Timeout = 0
    ∧ (createHTTPClient ⟨"http://ha", false, "", true, some ⟨0, false⟩⟩).Timeout ≠ 10
    ∧ (createHTTPClient ⟨"http://ha", false, "", true, none⟩).Timeout = 10 :=
  ⟨rfl, by decide, rfl⟩

/-- C3 counterexample: on an event whose directive has no header, the
returned error is the unsupported-version error (message
`"only support payloadVersion == 3"`), which is not of the
malformed-request kind — refuting the claim that a missing or invalid
header produces a malformed-request error. -/
theorem c3_counterexample :
    (handleRequest hDirect [("directive", JVal.obj [])] netNone).result
      = Except.error HErr.unsupportedVersion
    ∧ HErr.isMalformedRequest HErr.unsupportedVersion = false
    ∧ HErr.message HErr.unsupportedVersion = "only support payloadVersion == 3" :=
  ⟨rfl, rfl, rfl⟩

/-- C3 (amended): for every event whose directive is an object but whose
header is missing or not an object, `HandleRequest` returns the
unsupported-version failure (the same error as for a wrong
`payloadVersion`), and performs no HTTP call. -/
theorem c3_missing_header_gives_unsupported_version
    (h : LambdaHandler) (ev d : JObj)
    (net : HTTPClient → OutRequest → Option HTTPResponse)
    (hdir : getObj ev "directive" = some d)
    (hhdr : getObj d "header" = none) :
    (handleRequest h ev net).result = Except.error HErr.unsupportedVersion
    ∧ (handleRequest h ev net).call = none := by
  have hv : versionOK d = false := by unfold versionOK; rw [hhdr]
  unfold handleRequest
  simp only [hdir, hv, Bool.not_false, if_true, ite_true]
  exact ⟨trivial, trivial⟩

/-- C3 amended witness: a directive whose header is a string, not an
object. -/
theorem c3_amended_witness :
    (handleRequest hDirect [("directive", JVal.obj [("header", JVal.str "x")])] netNone).result
      = Except.error HErr.unsupportedVersion
    ∧ (handleRequest hDirect [("directive", JVal.obj [("header", JVal.str "x")])] netNone).call
      = none :=
  c3_missing_header_gives_unsupported_version hDirect
    [("directive", JVal.obj [("header", JVal.str "x")])]
    [("header", JVal.str "x")] netNone rfl rfl

/-- C5: for every directive that fails the version check — header absent
or not an object, or `header.payloadVersion` anything other than the
string `"3"` (that is exactly `versionOK = false`) — `HandleRequest`
returns the unsupported-version failure and performs no HTTP call. -/
theorem c5_unsupported_version_no_call
    (h : LambdaHandler) (ev d : JObj)
    (net : HTTPClient → OutRequest → Option HTTPResponse)
    (hdir : getObj ev "directive" = some d)
    (hver : versionOK d = false) :
    (handleRequest h ev net).result = Except.error HErr.unsupportedVersion
    ∧ (handleRequest h ev net).call = none := by
  unfold handleRequest
  simp only [hdir, hver, Bool.not_false, if_true, ite_true]
  exact ⟨trivial, trivial⟩

/-- C5 witness: a directive carrying `payloadVersion = "2"`. -/
theorem c5_witness :
    (handleRequest hDirect
        [("directive", JVal.obj [("header", JVal.obj [("payloadVersion", JVal.str "2")])])]
        netNone).result = Except.error HErr.unsupportedVersion
    ∧ (handleRequest hDirect
        [("directive", JVal.obj [("header", JVal.obj [("payloadVersion", JVal.str "2")])])]
        netNone).call = none :=
  c5_unsupported_version_no_call hDirect
    [("directive", JVal.obj [("header", JVal.obj [("payloadVersion", JVal.str "2")])])]
    [("header", JVal.obj [("payloadVersion", JVal.str "2")])] netNone rfl rfl

/-- C4: scope resolution tries `directive.endpoint.scope`, then
`directive.payload.grantee`, then `directive.payload.scope`, first
object found wins (`extractScope` coincides with the spec's ordered
first-match resolution; in particular, when all three are present,
`endpoint.scope` wins), and when none of the three locations holds an
object `HandleRequest` fails with the malformed-request missing-scope
error and performs no HTTP call. -/
theorem c4_scope_resolution_order (d : JObj) :
    extractScope d = extractScopeSpec d
    ∧ ∀ (h : LambdaHandler) (ev : JObj) (net : HTTPClient → OutRequest → Option HTTPResponse),
        getObj ev "directive" = some d → versionOK d = true → extractScope d = none →
        (handleRequest h ev net).result = Except.error HErr.missingScope
        ∧ (handleRequest h ev net).call = none := by
  constructor
  · unfold extractScope extractScopeSpec extractScopeFromPayload
    cases hE : getObj d "endpoint" with
    | none =>
      cases hP : getObj d "payload" with
      | none => simp [hE, hP, Option.orElse]
      | some p => cases hG : getObj p "grantee" <;> simp [hE, hP, hG, Option.orElse]
    | some e =>
      cases hS : getObj e "scope" with
      | none =>
        cases hP : getObj d "payload" with
        | none => simp [hE, hS, hP, Option.orElse]
        | some p => cases hG : getObj p "grantee" <;> simp [hE, hS, hP, hG, Option.orElse]
      | some s => simp [hE, hS, Option.orElse]
  · intro h ev net hdir hver hnone
    unfold handleRequest
    simp only [hdir, hver, hnone, Bool.not_true, Bool.false_eq_true, if_false, ite_false]
    exact ⟨trivial, trivial⟩

/-- C4 witness: with a scope in all three locations `endpoint.scope`
wins, and with a scope in none `HandleRequest` reports a missing scope. -/
theorem c4_witness :
    extractScope
        [("endpoint", JVal.obj [("scope", JVal.obj [("type", JVal.str "fromEndpoint")])]),
         ("payload", JVal.obj
           [("grantee", JVal.obj [("type", JVal.str "fromGrantee")]),
            ("scope", JVal.obj [("type", JVal.str "fromPayload")])])]
      = some [("type", JVal.str "fromEndpoint")]
    ∧ (handleRequest hDirect
        [("directive", JVal.obj [("header", JVal.obj [("payloadVersion", JVal.str "3")])])]
        netNone).result = Except.error HErr.missingScope := by
  refine ⟨?_, ?_⟩
  · rw [(c4_scope_resolution_order
      [("endpoint", JVal.obj [("scope", JVal.obj [("type", JVal.str "fromEndpoint")])]),
       ("payload", JVal.obj
         [("grantee", JVal.obj [("type", JVal.str "fromGrantee")]),
          ("scope", JVal.obj [("type", JVal.str "fromPayload")])])]).1]
    rfl
  · exact ((c4_scope_resolution_order
      [("header", JVal.obj [("payloadVersion", JVal.str "3")])]).2 hDirect
      [("directive", JVal.obj [("header", JVal.obj [("payloadVersion", JVal.str "3")])])]
      netNone rfl rfl rfl).1

/-- C6: for every valid bearer-token directive whose `scope.token` is
the empty string, the outbound request is issued with authorization
`Bearer` plus the configured fallback long-lived token when `Debug` is
true, and `Bearer` plus the empty credential (no substitution, no
failure at this step) when `Debug` is false. -/
theorem c6_empty_token_debug_fallback
    (h : LambdaHandler) (ev d scope : JObj)
    (net : HTTPClient → OutRequest → Option HTTPResponse)
    (hdir : getObj ev "directive" = some d)
    (hver : versionOK d = true)
    (hscope : extractScope d = some scope)
    (htype : goStr (scope.lookup "type") = "BearerToken")
    (htok : goStr (scope.lookup "token") = "") :
    (handleRequest h ev net).call =
      some ⟨"POST", h.BaseURL ++ "/api/alexa/smart_home",
        "Bearer " ++ (if h.Debug then h.LongLivedToken else ""),
        "application/json", marshal (JVal.obj ev)⟩ := by
  rw [handleRequest_valid h ev d scope net hdir hver hscope htype]
  simp only [htok, true_and, if_true, ite_true]
  cases hn : net (createHTTPClient h)
      ⟨"POST", h.BaseURL ++ "/api/alexa/smart_home",
        "Bearer " ++ (if h.Debug then h.LongLivedToken else ""),
        "application/json", marshal (JVal.obj ev)⟩ with
  | none => rfl
  | some resp =>
    by_cases hs : resp.StatusCode ≥ 400
    · simp only [hs, if_true, ite_true]
    · simp only [hs, if_false, ite_false]
      cases resp.DecodedBody <;> rfl

/-- C6 witness: the same empty-token event under a debug handler (the
fallback token is substituted) and a non-debug handler (the empty
credential is forwarded). -/
theorem c6_witness :
    (handleRequest hDebug evV3 netNone).call =
      some ⟨"POST", hDebug.BaseURL ++ "/api/alexa/smart_home",
        "Bearer " ++ (if hDebug.Debug then hDebug.LongLivedToken else ""),
        "application/json", marshal (JVal.obj evV3)⟩
    ∧ (handleRequest hDirect evV3 netNone).call =
      some ⟨"POST", hDirect.BaseURL ++ "/api/alexa/smart_home",
        "Bearer " ++ (if hDirect.Debug then hDirect.LongLivedToken else ""),
        "application/json", marshal (JVal.obj evV3)⟩ :=
  ⟨c6_empty_token_debug_fallback hDebug evV3 dV3 scopeV3 netNone rfl rfl rfl rfl rfl,
   c6_empty_token_debug_fallback hDirect evV3 dV3 scopeV3 netNone rfl rfl rfl rfl rfl⟩

/-- C7: handler construction fails fatally (no handler is produced, so
no request is ever served) when `BASE_URL` is unset or empty, and on
success the configured base URL is stored with every trailing slash
stripped. -/
theorem c7_base_url_required_and_trimmed (env : Env) (ts : Option HTTPClient) :
    (env.BASE_URL = none ∨ env.BASE_URL = some "" → NewLambdaHandler env ts = none)
    ∧ ∀ h, NewLambdaHandler env ts = some h →
        h.BaseURL = trimRightSlash (env.BASE_URL.getD "") := by
  constructor
  · intro hb
    rcases hb with hb | hb <;> rw [NewLambdaHandler, hb] <;> rfl
  · intro h hk
    rw [NewLambdaHandler] at hk
    by_cases hz : trimRightSlash (env.BASE_URL.getD "") = ""
    · simp only [hz, if_true, ite_true] at hk
      cases hk
    · simp only [hz, if_false, ite_false, Option.some.injEq] at hk
      rw [← hk]

/-- C7 witness: an unset base URL aborts construction; a base URL with a
trailing slash is stored trimmed. -/
theorem c7_witness :
    NewLambdaHandler ⟨none, none, none, none⟩ none = none
    ∧ ({ BaseURL := "http://ha", Debug := false, LongLivedToken := "",
         VerifySSL := true, TSNetServer := none } : LambdaHandler).BaseURL
      = trimRightSlash ((⟨some "http://ha/", none, none, none⟩ : Env).BASE_URL.getD "") :=
  ⟨(c7_base_url_required_and_trimmed ⟨none, none, none, none⟩ none).1 (Or.inl rfl),
   (c7_base_url_required_and_trimmed ⟨some "http://ha/", none, none, none⟩ none).2
     { BaseURL := "http://ha", Debug := false, LongLivedToken := "",
       VerifySSL := true, TSNetServer := none } rfl⟩

/-- C8: `HandleRequest` never mutates the input event document — the
event map is unchanged at return on every success and failure path —
and whenever an HTTP call is issued its body is the JSON serialization
of the event exactly as received. -/
theorem c8_event_not_mutated_body_is_original
    (h : LambdaHandler) (ev : JObj)
    (net : HTTPClient → OutRequest → Option HTTPResponse) :
    (handleRequest h ev net).finalEvent = ev
    ∧ ((handleRequest h ev net).call.all fun req => req.Body == marshal (JVal.obj ev)) = true := by
  unfold handleRequest
  repeat' split
  all_goals (try simp [Option.all])
  all_goals (repeat' split)
  all_goals (try simp [Option.all])
  all_goals simp_all
  all_goals (subst_vars; rfl)

/-- C9: a resolved scope whose `type` or `token` field holds a
non-string value does not make `HandleRequest` panic: a non-string
`type` is treated as absent (the Go two-valued assertion yields `""`)
and rejected with the unsupported-auth-type failure, and a non-string
`token` is treated as the empty string, so the debug fallback applies
exactly when `Debug` is true. -/
theorem c9_nonstring_scope_fields_are_safe :
    (∀ (h : LambdaHandler) (ev d scope : JObj)
        (net : HTTPClient → OutRequest → Option HTTPResponse) (v : JVal),
      getObj ev "directive" = some d → versionOK d = true → extractScope d = some scope →
      scope.lookup "type" = some v → v.isStr = false →
      (handleRequest h ev net).result = Except.error HErr.unsupportedAuthType
      ∧ (handleRequest h ev net).call = none)
    ∧ (∀ (h : LambdaHandler) (ev d scope : JObj)
        (net : HTTPClient → OutRequest → Option HTTPResponse) (w : JVal),
      getObj ev "directive" = some d → versionOK d = true → extractScope d = some scope →
      goStr (scope.lookup "type") = "BearerToken" →
      scope.lookup "token" = some w → w.isStr = false →
      (handleRequest h ev net).call =
        some ⟨"POST", h.BaseURL ++ "/api/alexa/smart_home",
          "Bearer " ++ (if h.Debug then h.LongLivedToken else ""),
          "application/json", marshal (JVal.obj ev)⟩) := by
  constructor
  · intro h ev d scope net v hdir hver hscope htype hv
    have ht : goStr (scope.lookup "type") = "" := by
      rw [htype]; exact goStr_eq_empty_of_not_isStr v hv
    unfold handleRequest
    simp [hdir, hver, hscope, ht]
  · intro h ev d scope net w hdir hver hscope htype htok hw
    have ht : goStr (scope.lookup "token") = "" := by
      rw [htok]; exact goStr_eq_empty_of_not_isStr w hw
    rw [handleRequest_valid h ev d scope net hdir hver hscope htype]
    simp only [ht, true_and, if_true, ite_true]
    cases hn : net (createHTTPClient h)
        ⟨"POST", h.BaseURL ++ "/api/alexa/smart_home",
          "Bearer " ++ (if h.Debug then h.LongLivedToken else ""),
          "application/json", marshal (JVal.obj ev)⟩ with
    | none => rfl
    | some resp =>
      by_cases hs : resp.StatusCode ≥ 400
      · simp only [hs, if_true, ite_true]
      · simp only [hs, if_false, ite_false]
        cases resp.DecodedBody <;> rfl

/-- C9 witness: a numeric `type` is rejected as unsupported-auth-type,
and a boolean `token` under a debug handler falls back to the configured
long-lived token. -/
theorem c9_witness :
    (handleRequest hDirect
        [("directive", JVal.obj
          [("header", JVal.obj [("payloadVersion", JVal.str "3")]),
           ("payload", JVal.obj [("scope", JVal.obj [("type", JVal.num 5)])])])]
        netNone).result = Except.error HErr.unsupportedAuthType
    ∧ (handleRequest hDebug
        [("directive", JVal.obj
          [("header", JVal.obj [("payloadVersion", JVal.str "3")]),
           ("payload", JVal.obj
             [("scope", JVal.obj
               [("type", JVal.str "BearerToken"), ("token", JVal.bool true)])])])]
        netNone).call =
      some ⟨"POST", hDebug.BaseURL ++ "/api/alexa/smart_home",
        "Bearer " ++ (if hDebug.Debug then hDebug.LongLivedToken else ""),
        "application/json",
        marshal (JVal.obj
          [("directive", JVal.obj
            [("header", JVal.obj [("payloadVersion", JVal.str "3")]),
             ("payload", JVal.obj
               [("scope", JVal.obj
                 [("type", JVal.str "BearerToken"), ("token", JVal.bool true)])])])])⟩ :=
  ⟨(c9_nonstring_scope_fields_are_safe.1 hDirect
      [("directive", JVal.obj
        [("header", JVal.obj [("payloadVersion", JVal.str "3")]),
         ("payload", JVal.obj [("scope", JVal.obj [("type", JVal.num 5)])])])]
      [("header", JVal.obj [("payloadVersion", JVal.str "3")]),
       ("payload", JVal.obj [("scope", JVal.obj [("type", JVal.num 5)])])]
      [("type", JVal.num 5)] netNone (JVal.num 5) rfl rfl rfl rfl rfl).1,
   c9_nonstring_scope_fields_are_safe.2 hDebug
      [("directive", JVal.obj
        [("header", JVal.obj [("payloadVersion", JVal.str "3")]),
         ("payload", JVal.obj
           [("scope", JVal.obj
             [("type", JVal.str "BearerToken"), ("token", JVal.bool true)])])])]
      [("header", JVal.obj [("payloadVersion", JVal.str "3")]),
       ("payload", JVal.obj
         [("scope", JVal.obj
           [("type", JVal.str "BearerToken"), ("token", JVal.bool true)])])]
      [("type", JVal.str "BearerToken"), ("token", JVal.bool true)]
      netNone (JVal.bool true) rfl rfl rfl rfl rfl rfl⟩

/-- C10: with `Debug` false, the outcome of `HandleRequest` — result,
outbound request, and final event state alike — is independent of the
configured fallback long-lived token. -/
theorem c10_nondebug_independent_of_token
    (burl t1 t2 : String) (vssl : Bool) (ts : Option HTTPClient) (ev : JObj)
    (net : HTTPClient → OutRequest → Option HTTPResponse) :
    handleRequest ⟨burl, false, t1, vssl, ts⟩ ev net
      = handleRequest ⟨burl, false, t2, vssl, ts⟩ ev net := by
  unfold handleRequest createHTTPClient
  simp only [and_false, Bool.false_eq_true, if_false, ite_false]

end HassTailscale
